import Mathlib

/-!
Verification development for the hpct-slurm-server-operator charm.

The embedding models the pure content of the Python sources:
  * `src/manager/slurm_server.py` (`SlurmServerManager`)
  * `src/manager/munge.py` (`MungeManager`)
  * `src/charm.py` (`SlurmServerCharm._slurm_compute_relation_changed`)

Files are modelled by their contents: the slurm configuration file as a list
of lines (each line a `List Char`; this is faithful for line strings that
contain no newline characters), the munge key file as a list of bytes.
Systemd, apt and the relation-data buckets are modelled as explicit state
plus a trace of the external actions a handler performs, in the order the
source performs them.
-/

set_option maxHeartbeats 1000000

deriving instance DecidableEq for Except

abbrev Line := List Char

abbrev Doc := List Line

/-- Characters of a string literal, used to write concrete lines. -/
def str (s : String) : Line := s.toList

/-- Python `str.strip()` whitespace class (ASCII part; the lines handled by
this charm are ASCII). -/
def pyIsSpace (c : Char) : Bool :=
  c = ' ' || c = '\t' || c = '\n' || c = '\r' || c = '\x0b' || c = '\x0c'

/-- Python `line.strip()`: drop leading and trailing whitespace. -/
def pyStrip (l : Line) : Line :=
  ((l.dropWhile pyIsSpace).reverse.dropWhile pyIsSpace).reverse

/-- Python `s.startswith(p)`. -/
def startsWith : Line → Line → Bool
  | [], _ => true
  | _ :: _, [] => false
  | a :: as, b :: bs => a == b && startsWith as bs

/-- Python `s.split(sep)` for a one-character separator: splits on every
occurrence, keeping empty fields. -/
def splitCh (sep : Char) : Line → List Line
  | [] => [[]]
  | x :: xs =>
    match splitCh sep xs with
    | [] => [[]]
    | y :: ys => if x = sep then [] :: y :: ys else (x :: y) :: ys

/-- Token extraction of `generate_base_partition`
(`slurm_server.py:167-169`): `lexeme = entry.split(" ")`,
`token = lexeme[0].split("=")`, then `token[1]`.  Python raises
`IndexError` when the first word has no `=`; every `NodeName`-prefixed line
this charm writes starts with `NodeName=`, so index 1 always exists there,
and the total `getD` default is never reached on those lines. -/
def nodeToken (entry : Line) : Line :=
  (splitCh '=' ((splitCh ' ' entry).headD [])).getD 1 []

/-- The set comprehension of `generate_base_partition`
(`slurm_server.py:164-169`): collect node-name tokens of lines starting
with `"NodeName"` into a set.  Python iterates a hash `set`, whose
iteration order is a deterministic function of the set contents within one
process; the model realises one such deterministic order, first insertion
order (a duplicate insertion leaves the set unchanged). -/
def collectNodes (conf : Doc) : List Line :=
  conf.foldl
    (fun acc entry =>
      if startsWith (str "NodeName") entry then
        let t := nodeToken entry
        if t ∈ acc then acc else acc ++ [t]
      else acc)
    []

/-- One pass of the CPython loop
`for entry in conf: if entry.startswith("PartitionName=base"): conf.remove(entry)`
(`slurm_server.py:171-173`).  The `for` statement keeps an integer cursor
into the list being mutated: after visiting index `i` it always moves to
index `i + 1` of the (possibly shortened) list, and `list.remove` deletes
the first element equal to the visited one (`List.erase`).  The cursor
starts at 0; the loop stops when the cursor passes the current length.
`fuel` bounds the number of iterations; the loop visits indices
`0, 1, 2, ...` and the list never grows, so `conf.length` iterations always
suffice and `pyRemove` below is exact. -/
def pyRemoveAux (p : Line → Bool) : Nat → Doc → Nat → Doc
  | 0, conf, _ => conf
  | fuel + 1, conf, i =>
    if h : i < conf.length then
      let entry := conf.get ⟨i, h⟩
      if p entry then pyRemoveAux p fuel (conf.erase entry) (i + 1)
      else pyRemoveAux p fuel conf (i + 1)
    else conf

def pyRemove (p : Line → Bool) (conf : Doc) : Doc :=
  pyRemoveAux p conf.length conf 0

/-- The line appended by `generate_base_partition` (`slurm_server.py:175-177`):
`f"PartitionName=base Nodes={','.join(node_list)} MaxNodes={len(node_list)} State=UP"`. -/
def partitionLine (nodes : List Line) : Line :=
  str "PartitionName=base Nodes=" ++ List.intercalate (str ",") nodes ++
    str " MaxNodes=" ++ str (toString nodes.length) ++ str " State=UP"

/-- `SlurmServerManager.generate_base_partition` (`slurm_server.py:160-181`):
read and strip all lines of `/etc/slurm/slurm.conf`, collect the set of node
names from `NodeName`-prefixed entries, run the removal loop for lines
starting with `PartitionName=base`, append the freshly generated base
partition line, and write the document back. -/
def generate_base_partition (conf : Doc) : Doc :=
  let conf1 := conf.map pyStrip
  let nodes := collectNodes conf1
  let conf2 := pyRemove (startsWith (str "PartitionName=base")) conf1
  conf2 ++ [partitionLine nodes]

/-- The line appended by `add_node` (`slurm_server.py:193-195`):
`f"NodeName={nodename} NodeAddr={nodeaddr} CPUs={cpus} RealMemory={realmemory}"`.
The four fields carry the rendered (`str()`) form of the keyword-argument
values. -/
def nodeLine (nodename nodeaddr cpus realmemory : Line) : Line :=
  str "NodeName=" ++ nodename ++ str " NodeAddr=" ++ nodeaddr ++
    str " CPUs=" ++ cpus ++ str " RealMemory=" ++ realmemory

/-- `SlurmServerManager.__lint_node_conf` (`slurm_server.py:278-286`): walk
the received arguments and raise `InvalidNodeConfError` at the first absent
(`None`) one. -/
def lint_node_conf : List (Option Line) → Except Unit Unit
  | [] => .ok ()
  | none :: _ => .error ()
  | some _ :: rest => lint_node_conf rest

/-- `SlurmServerManager.add_node` (`slurm_server.py:183-196`): fetch the four
keyword arguments with default `None`, lint them, then append the formatted
node directive to the configuration file (the external
`SlurmConfFileEditor.load`/`add_line`/`dump` round trip appends one line to
the persisted document, per its documented contract).  The `getD []`
defaults are unreachable: the lint has already ruled out `none`. -/
def add_node (nodename nodeaddr cpus realmemory : Option Line) (conf : Doc) :
    Except Unit Doc :=
  match lint_node_conf [nodename, nodeaddr, cpus, realmemory] with
  | .error e => .error e
  | .ok _ =>
      .ok (conf ++
        [nodeLine (nodename.getD []) (nodeaddr.getD []) (cpus.getD [])
          (realmemory.getD [])])

/-- One keyword-argument record passed to `add_node`, rendered to strings
as the f-string of `add_node` renders the values. -/
structure NodeRec where
  nodename : Line
  nodeaddr : Line
  cpus : Line
  realmemory : Line
deriving DecidableEq, Repr

def nodeLineOf (r : NodeRec) : Line :=
  nodeLine r.nodename r.nodeaddr r.cpus r.realmemory

/-- `true` when a call returned normally rather than raising. -/
def exceptOk : Except ε α → Bool
  | .ok _ => true
  | .error _ => false

/-- The first line written by `generate_new_conf` (`slurm_server.py:134`):
`f"SlurmctldHost={self.__get_hostname()}({self.__get_ipv4_address()})"`. -/
def slurmctldHostLine (hostname ip : Line) : Line :=
  str "SlurmctldHost=" ++ hostname ++ str "(" ++ ip ++ str ")"

/-- The fixed tail of the baseline configuration template
(`slurm_server.py:135-155`). -/
def baselineTail : Doc :=
  [str "ClusterName=base",
   str "AuthType=auth/munge",
   str "FirstJobId=65536",
   str "InactiveLimit=120",
   str "JobCompType=jobcomp/filetxt",
   str "JobCompLoc=/var/log/slurm/jobcomp",
   str "ProctrackType=proctrack/linuxproc",
   str "KillWait=30",
   str "MaxJobCount=10000",
   str "MinJobAge=3600",
   str "ReturnToService=0",
   str "SchedulerType=sched/backfill",
   str "SlurmctldLogFile=/var/log/slurm/slurmctld.log",
   str "SlurmdLogFile=/var/log/slurm/slurmd.log",
   str "SlurmctldPort=7002",
   str "SlurmdPort=7003",
   str "SlurmdSpoolDir=/var/spool/slurmd.spool",
   str "StateSaveLocation=/var/spool/slurm.state",
   str "SwitchType=switch/none",
   str "TmpFS=/tmp",
   str "WaitTime=30"]

/-- `SlurmServerManager.generate_new_conf` (`slurm_server.py:126-158`): the
freshly created configuration document (the old file is removed, an empty
file created, and the template lines are appended and dumped). -/
def generate_new_conf (hostname ip : Line) : Doc :=
  slurmctldHostLine hostname ip :: baselineTail

/-- Data a compute unit publishes on the `slurm-compute` relation
(`interface/slurm_compute.py`): all five fields are typed interface values
with non-`None` defaults, so the registration handler always receives
present values; the integer fields appear here in their rendered form,
which is what the `add_node` f-string interpolates. -/
structure ComputeIface where
  nonce : Line
  hostname : Line
  ip_address : Line
  cpu_count : Line
  free_memory : Line
deriving DecidableEq, Repr

/-- Events a charm handler performs, in source order.  Only external effects
are traced: status messages, systemd calls actually issued, the two
configuration-file mutations of an admission, and a write of the
configuration file into the controller bucket (`publishConf` is the write
the registration handler attempts at `charm.py:134`; as proved below it is
never reached, so no handler emits it).  Log statements are not traced. -/
inductive CEv where
  | setStatus (m : Line)
  | svcStop
  | svcStart
  | addNodeEv
  | genPartEv
  | publishConf
deriving DecidableEq, Repr

/-- Unit-local state seen by `charm.py`: leadership flag, slurmctld package
and service state, the configuration document on disk, and the provider
buckets of the `slurm-controller` relation (`slurm_conf` payload and
`nonce`).  The configuration file is assumed present (the install hook
created it); its contents are the `conf` field. -/
structure World where
  leader : Bool
  slurmInstalled : Bool
  slurmRunning : Bool
  conf : Doc
  outConf : Option Doc
  outNonce : Line
  status : Line
deriving DecidableEq, Repr

/-- `SlurmServerManager.stop` (`slurm_server.py:222-232`): raise
`SlurmctldNotFoundError` when the package is absent; otherwise call
`service_stop("slurmctld")` only when the service is running. -/
def slurmctld_stop (w : World) : Except Unit (World × List CEv) :=
  if w.slurmInstalled then
    if w.slurmRunning then .ok ({ w with slurmRunning := false }, [.svcStop])
    else .ok (w, [])
  else .error ()

/-- `SlurmServerManager.start` (`slurm_server.py:210-220`): raise
`SlurmctldNotFoundError` when the package is absent; otherwise call
`service_start("slurmctld")` only when the service is not running. -/
def slurmctld_start (w : World) : Except Unit (World × List CEv) :=
  if w.slurmInstalled then
    if !w.slurmRunning then .ok ({ w with slurmRunning := true }, [.svcStart])
    else .ok (w, [])
  else .error ()

/-- Result of one charm event handler: `ok` when the hook returns normally,
`raised` when an uncaught Python exception escapes it.  In both cases the
`World` and the trace record the external effects performed up to that
point — file writes and systemd calls persist even when the hook then
fails. -/
inductive HookResult where
  | ok (w : World) (tr : List CEv)
  | raised (w : World) (tr : List CEv)
deriving DecidableEq, Repr

/-- `SlurmServerCharm._slurm_compute_relation_changed` (`charm.py:112-137`):
empty nonce reports "not ready"; a non-leader only reports; the leader
stops slurmctld (`SlurmctldNotFoundError` escapes the hook when the
package is absent), runs `add_node` on the interface values,
`generate_base_partition`, `start`, and then evaluates
`out.slurm_conf.load(self.slurm_server_manager.conf_file_path,
checksum=True)` (`charm.py:133-134`).  `SlurmServerManager` defines
`conf_file` (`slurm_server.py:111-124`) but no attribute named
`conf_file_path`, so this access raises `AttributeError`: the hook fails
after the service restart, the controller bucket is never written
(`outConf` and `outNonce` stay as they were), and the file and systemd
effects already performed persist. -/
def slurm_compute_relation_changed (w : World) (iface : ComputeIface) :
    HookResult :=
  if iface.nonce = [] then
    .ok { w with status := str "Compute node is not ready yet" }
      [.setStatus (str "Compute node is not ready yet")]
  else if w.leader then
    let w0 := { w with status := str "Registering new compute node" }
    let t0 := [CEv.setStatus (str "Registering new compute node")]
    match slurmctld_stop w0 with
    | .error _ => .raised w0 t0
    | .ok (w1, t1) =>
      match add_node (some iface.hostname) (some iface.ip_address)
          (some iface.cpu_count) (some iface.free_memory) w1.conf with
      | .error _ => .raised w1 (t0 ++ t1)
      | .ok c2 =>
        let w2 := { w1 with conf := c2 }
        let w3 := { w2 with conf := generate_base_partition w2.conf }
        match slurmctld_start w3 with
        | .error _ => .raised w3 (t0 ++ t1 ++ [CEv.addNodeEv, CEv.genPartEv])
        | .ok (w4, t4) =>
            .raised w4 (t0 ++ t1 ++ [CEv.addNodeEv, CEv.genPartEv] ++ t4)
  else
    .ok { w with status := str "Leader registering new compute node" }
      [.setStatus (str "Leader registering new compute node")]

/-- Munge-side unit state (`manager/munge.py`): package presence, service
state, and the key file `/etc/munge/munge.key`, identified by a generation
number (`some g` = present).  `nextKey` numbers the bytes the external
`mungekey -c` utility would produce next. -/
structure MungeSt where
  installed : Bool
  running : Bool
  keyFile : Option Nat
  nextKey : Nat
deriving DecidableEq, Repr

/-- Primitive effects of the munge manager; each is paired in traces with
the `running` flag of the service at the moment the effect happens. -/
inductive MEv where
  | svcStop
  | svcStart
  | rmKey
  | mungekey
deriving DecidableEq, Repr

/-- `MungeManager.stop` (`munge.py:157-167`). -/
def munge_stop (s : MungeSt) : Except Unit (MungeSt × List (MEv × Bool)) :=
  if s.installed then
    if s.running then .ok ({ s with running := false }, [(.svcStop, s.running)])
    else .ok (s, [])
  else .error ()

/-- `MungeManager.start` (`munge.py:145-155`). -/
def munge_start (s : MungeSt) : Except Unit (MungeSt × List (MEv × Bool)) :=
  if s.installed then
    if !s.running then .ok ({ s with running := true }, [(.svcStart, s.running)])
    else .ok (s, [])
  else .error ()

/-- `MungeManager.generate_new_key` (`munge.py:95-110`): raise
`MungeNotFoundError` when munge is absent; otherwise `self.stop()`, delete
`/etc/munge/munge.key` if it exists, run `mungekey -c`, `self.start()`. -/
def generate_new_key (s : MungeSt) : Except Unit (MungeSt × List (MEv × Bool)) :=
  if s.installed then do
    let (s1, t1) ← munge_stop s
    let (s2, t2) :=
      if s1.keyFile.isSome then
        ({ s1 with keyFile := none }, [((MEv.rmKey : MEv), s1.running)])
      else (s1, ([] : List (MEv × Bool)))
    let s3 := { s2 with keyFile := some s2.nextKey, nextKey := s2.nextKey + 1 }
    let t3 := [(MEv.mungekey, s2.running)]
    let (s4, t4) ← munge_start s3
    .ok (s4, t1 ++ t2 ++ t3 ++ t4)
  else .error ()

/-- Outcome of the external `apt.add_package` call inside `install`. -/
inductive AptOutcome where
  | ok
  | notFound
  | pkgError (msg : Line)
deriving DecidableEq, Repr

/-- Log records emitted by the manager `install` methods. -/
inductive LogEv where
  | debug (m : Line)
  | error (m : Line)
deriving DecidableEq, Repr

/-- `SlurmServerManager.install` (`slurm_server.py:198-208`): try
`apt.add_package("slurmctld")`; `except apt.PackageNotFoundError` and
`except apt.PackageError` log an error and fall through; the `finally`
block logs `"slurmctld installed."` in every case.  No exception leaves the
method, so the result is always `ok`. -/
def installSlurmctld (r : AptOutcome) : Except Unit Unit × List LogEv :=
  match r with
  | .ok =>
      (.ok (), [.debug (str "Installing SLURM Central Management Daemon (slurmctld)."),
        .debug (str "slurmctld installed.")])
  | .notFound =>
      (.ok (), [.debug (str "Installing SLURM Central Management Daemon (slurmctld)."),
        .error (str "Could not install slurmctld. Not found in package cache."),
        .debug (str "slurmctld installed.")])
  | .pkgError m =>
      (.ok (), [.debug (str "Installing SLURM Central Management Daemon (slurmctld)."),
        .error (str "Could not install slurmctld. Reason: " ++ m ++ str "."),
        .debug (str "slurmctld installed.")])

/-- `MungeManager.install` (`munge.py:133-143`): identical shape for the
`munge` package. -/
def installMunge (r : AptOutcome) : Except Unit Unit × List LogEv :=
  match r with
  | .ok =>
      (.ok (), [.debug (str "Installing MUNGE authentication daemon (munge)."),
        .debug (str "munge installed.")])
  | .notFound =>
      (.ok (), [.debug (str "Installing MUNGE authentication daemon (munge)."),
        .error (str "Could not install munge. Not found in package cache."),
        .debug (str "munge installed.")])
  | .pkgError m =>
      (.ok (), [.debug (str "Installing MUNGE authentication daemon (munge)."),
        .error (str "Could not install munge. Reason: " ++ m ++ str "."),
        .debug (str "munge installed.")])

/-- `true` exactly on the failing apt outcomes. -/
def aptFailed : AptOutcome → Bool
  | .ok => false
  | _ => true

/-- `true` on `LogEv.error` records. -/
def isErrorLog : LogEv → Bool
  | .error _ => true
  | .debug _ => false

/-!
SHA-224 (FIPS 180-4), the digest behind `hashlib.sha224`, over byte lists,
with 32-bit words as `Nat` reduced modulo `2 ^ 32`.
-/

def m32 : Nat := 4294967296

def add32 (a b : Nat) : Nat := (a + b) % m32

def rotr32 (n x : Nat) : Nat := ((x >>> n) ||| (x <<< (32 - n))) % m32

def xor3 (a b c : Nat) : Nat := (a ^^^ b) ^^^ c

def bsig0 (x : Nat) : Nat := xor3 (rotr32 2 x) (rotr32 13 x) (rotr32 22 x)

def bsig1 (x : Nat) : Nat := xor3 (rotr32 6 x) (rotr32 11 x) (rotr32 25 x)

def ssig0 (x : Nat) : Nat := xor3 (rotr32 7 x) (rotr32 18 x) (x >>> 3)

def ssig1 (x : Nat) : Nat := xor3 (rotr32 17 x) (rotr32 19 x) (x >>> 10)

def chf (x y z : Nat) : Nat := (x &&& y) ^^^ ((x ^^^ 4294967295) &&& z)

def majf (x y z : Nat) : Nat := ((x &&& y) ^^^ (x &&& z)) ^^^ (y &&& z)

/-- The 64 SHA-256 round constants, in decimal. -/
def sha2K : List Nat :=
  [1116352408, 1899447441, 3049323471, 3921009573, 961987163,
   1508970993, 2453635748, 2870763221, 3624381080, 310598401,
   607225278, 1426881987, 1925078388, 2162078206, 2614888103,
   3248222580, 3835390401, 4022224774, 264347078, 604807628,
   770255983, 1249150122, 1555081692, 1996064986, 2554220882,
   2821834349, 2952996808, 3210313671, 3336571891, 3584528711,
   113926993, 338241895, 666307205, 773529912, 1294757372,
   1396182291, 1695183700, 1986661051, 2177026350, 2456956037,
   2730485921, 2820302411, 3259730800, 3345764771, 3516065817,
   3600352804, 4094571909, 275423344, 430227734, 506948616,
   659060556, 883997877, 958139571, 1322822218, 1537002063,
   1747873779, 1955562222, 2024104815, 2227730452, 2361852424,
   2428436474, 2756734187, 3204031479, 3329325298]

/-- SHA-224 initial hash state, in decimal. -/
def sha224H0 : List Nat :=
  [3238371032, 914150663, 812702999, 4144912697, 4290775857,
   1750603025, 1694076839, 3204075428]

/-- Message-schedule extension: append `n` further words, each
`w[i] = w[i-16] + ssig0 w[i-15] + w[i-7] + ssig1 w[i-2] (mod 2^32)`. -/
def extendW : List Nat → Nat → List Nat
  | ws, 0 => ws
  | ws, n + 1 =>
      extendW
        (ws ++ [add32 (add32 (ws.getD (ws.length - 16) 0) (ssig0 (ws.getD (ws.length - 15) 0)))
          (add32 (ws.getD (ws.length - 7) 0) (ssig1 (ws.getD (ws.length - 2) 0)))])
        n

/-- One compression round on the eight-word working state. -/
def sha2Round (st : List Nat) (kw : Nat) : List Nat :=
  match st with
  | [a, b, c, d, e, f, g, h] =>
      let t1 := add32 h (add32 (bsig1 e) (add32 (chf e f g) kw))
      let t2 := add32 (bsig0 a) (majf a b c)
      [add32 t1 t2, a, b, c, add32 d t1, e, f, g]
  | other => other

/-- Compress one 16-word block into the hash state. -/
def sha2Compress (st : List Nat) (block : List Nat) : List Nat :=
  let ws := extendW block 48
  let kws := List.zipWith add32 sha2K ws
  List.zipWith add32 st (kws.foldl sha2Round st)

/-- 64-bit big-endian byte encoding. -/
def be64 (n : Nat) : List Nat :=
  [(n >>> 56) % 256, (n >>> 48) % 256, (n >>> 40) % 256, (n >>> 32) % 256,
   (n >>> 24) % 256, (n >>> 16) % 256, (n >>> 8) % 256, n % 256]

/-- SHA padding: `0x80`, zeros to 56 mod 64, then the bit length. -/
def shaPad (msg : List Nat) : List Nat :=
  msg ++ [0x80] ++ List.replicate ((64 - ((msg.length + 9) % 64)) % 64) 0 ++
    be64 (8 * msg.length)

/-- Split the padded message into 16-word big-endian blocks. -/
def shaBlocks (padded : List Nat) : List (List Nat) :=
  (List.range (padded.length / 64)).map fun b =>
    (List.range 16).map fun i =>
      let c := (padded.drop (64 * b + 4 * i)).take 4
      c.getD 0 0 * 16777216 + c.getD 1 0 * 65536 + c.getD 2 0 * 256 + c.getD 3 0

/-- SHA-224 digest words (the first seven state words). -/
def sha224Words (msg : List Nat) : List Nat :=
  ((shaBlocks (shaPad msg)).foldl sha2Compress sha224H0).take 7

def hexDigit (n : Nat) : Char := (str "0123456789abcdef").getD n '0'

def hexWord (w : Nat) : Line :=
  (List.range 8).map fun i => hexDigit ((w >>> (28 - 4 * i)) % 16)

/-- `hashlib.sha224(bytes).hexdigest()`. -/
def sha224hex (msg : List Nat) : Line :=
  (sha224Words msg).foldr (fun w acc => hexWord w ++ acc) []

/-- The two files the hash accessors look at, by content
(`none` = file absent). -/
structure HashFS where
  slurmConf : Option (List Nat)
  mungeKey : Option (List Nat)
deriving DecidableEq, Repr

inductive HashErr where
  | slurmConfNotFound
  | mungeKeyNotFound
  | fileNotFound
deriving DecidableEq, Repr

/-- `SlurmServerManager.hash` (`slurm_server.py:94-109`): raise
`SlurmConfNotFoundError` when `/etc/slurm/slurm.conf` is absent; otherwise
`sha224.update(open("/etc/munge/munge.key", "rb").read())` — the bytes
hashed are those of `/etc/munge/munge.key`, and an absent key file makes
the uncaught `open` raise `FileNotFoundError`. -/
def slurmServerHash (fs : HashFS) : Except HashErr Line :=
  if fs.slurmConf.isSome then
    match fs.mungeKey with
    | some k => .ok (sha224hex k)
    | none => .error .fileNotFound
  else .error .slurmConfNotFound

/-- `MungeManager.hash` (`munge.py:78-93`): raise `MungeKeyNotFoundError`
when `/etc/munge/munge.key` is absent; otherwise the sha224 hex digest of
its bytes. -/
def mungeHash (fs : HashFS) : Except HashErr Line :=
  match fs.mungeKey with
  | some k => .ok (sha224hex k)
  | none => .error .mungeKeyNotFound


/-! ### General helper lemmas -/

theorem dropWhile_eq_self_of_head {p : Char → Bool} {l : Line}
    (h : ∀ c ∈ l.head?, p c = false) : l.dropWhile p = l := by
  cases l with
  | nil => rfl
  | cons a as =>
      have ha : p a = false := h a rfl
      simp [List.dropWhile, ha]

theorem pyStrip_eq_self {l : Line}
    (h1 : ∀ c ∈ l.head?, pyIsSpace c = false)
    (h2 : ∀ c ∈ l.getLast?, pyIsSpace c = false) : pyStrip l = l := by
  unfold pyStrip
  rw [dropWhile_eq_self_of_head h1]
  rw [dropWhile_eq_self_of_head (by simpa using h2)]
  exact l.reverse_reverse

theorem map_pyStrip_eq_self {d : Doc} (h : ∀ l ∈ d, pyStrip l = l) :
    d.map pyStrip = d := by
  induction d with
  | nil => rfl
  | cons x xs ih =>
      simp only [List.map]
      rw [h x (by simp), ih (fun l hl => h l (by simp [hl]))]

theorem getLast?_append_right {α : Type} (l₁ : List α) {l₂ : List α}
    (h : l₂ ≠ []) : (l₁ ++ l₂).getLast? = l₂.getLast? := by
  rw [List.getLast?_append]
  cases hx : l₂.getLast? with
  | none => exact absurd (List.getLast?_eq_none_iff.mp hx) h
  | some x => rfl

theorem startsWith_ne_head {p l : Line} {cp cl : Char}
    (hp : p.head? = some cp) (hl : l.head? = some cl)
    (hne : (cp == cl) = false) : startsWith p l = false := by
  cases p with
  | nil => exact absurd hp (by simp)
  | cons a as =>
      cases l with
      | nil => exact absurd hl (by simp)
      | cons b bs =>
          simp only [List.head?_cons, Option.some.injEq] at hp hl
          subst hp; subst hl
          simp [startsWith, hne]

theorem startsWith_append_extend {p l : Line} (h : startsWith p l = true)
    (t : Line) : startsWith p (l ++ t) = true := by
  induction p generalizing l with
  | nil => rfl
  | cons a as ih =>
      cases l with
      | nil => exact absurd h (by simp [startsWith])
      | cons b bs =>
          simp only [startsWith, Bool.and_eq_true] at h
          simp only [List.cons_append, startsWith, Bool.and_eq_true]
          exact ⟨h.1, ih h.2 ⟩

/-! ### Shape facts about the concrete line builders -/

theorem pyStrip_hostLine (h ip : Line) :
    pyStrip (slurmctldHostLine h ip) = slurmctldHostLine h ip := by
  apply pyStrip_eq_self
  · intro c hc
    have : (slurmctldHostLine h ip).head? = some 'S' := rfl
    rw [this] at hc
    simp only [Option.mem_def, Option.some.injEq] at hc
    subst hc; rfl
  · intro c hc
    have : (slurmctldHostLine h ip).getLast? = some ')' := by
      show ((str "SlurmctldHost=" ++ h ++ str "(" ++ ip) ++ [')']).getLast? = some ')'
      exact List.getLast?_concat _
    rw [this] at hc
    simp only [Option.mem_def, Option.some.injEq] at hc
    subst hc; rfl

theorem pyStrip_baselineTail : ∀ l ∈ baselineTail, pyStrip l = l := by decide

theorem nodeLine_getLast? (n a c r : Line)
    (hr : ∀ ch ∈ r.getLast?, pyIsSpace ch = false) :
    ∀ ch ∈ (nodeLine n a c r).getLast?, pyIsSpace ch = false := by
  cases r with
  | nil =>
      intro ch hch
      have : (nodeLine n a c []).getLast? = some '=' := by
        show ((str "NodeName=" ++ n ++ str " NodeAddr=" ++ a ++ str " CPUs=" ++ c)
            ++ str " RealMemory=" ++ []).getLast? = some '='
        rw [List.append_nil]
        rw [getLast?_append_right _ (by decide)]
        rfl
      rw [this] at hch
      simp only [Option.mem_def, Option.some.injEq] at hch
      subst hch; rfl
  | cons x xs =>
      intro ch hch
      have : (nodeLine n a c (x :: xs)).getLast? = (x :: xs).getLast? := by
        show ((str "NodeName=" ++ n ++ str " NodeAddr=" ++ a ++ str " CPUs=" ++ c
            ++ str " RealMemory=") ++ (x :: xs)).getLast? = (x :: xs).getLast?
        exact getLast?_append_right _ (by simp)
      rw [this] at hch
      exact hr ch hch

theorem pyStrip_nodeLine (n a c r : Line)
    (hr : ∀ ch ∈ r.getLast?, pyIsSpace ch = false) :
    pyStrip (nodeLine n a c r) = nodeLine n a c r := by
  apply pyStrip_eq_self
  · intro ch hch
    have : (nodeLine n a c r).head? = some 'N' := rfl
    rw [this] at hch
    simp only [Option.mem_def, Option.some.injEq] at hch
    subst hch; rfl
  · exact nodeLine_getLast? n a c r hr

theorem pyStrip_partitionLine (ns : List Line) :
    pyStrip (partitionLine ns) = partitionLine ns := by
  apply pyStrip_eq_self
  · intro ch hch
    have : (partitionLine ns).head? = some 'P' := rfl
    rw [this] at hch
    simp only [Option.mem_def, Option.some.injEq] at hch
    subst hch; rfl
  · intro ch hch
    have : (partitionLine ns).getLast? = some 'P' := by
      show ((str "PartitionName=base Nodes=" ++ List.intercalate (str ",") ns ++
          str " MaxNodes=" ++ str (toString ns.length)) ++ str " State=UP").getLast?
          = some 'P'
      rw [getLast?_append_right _ (by decide)]
      rfl
    rw [this] at hch
    simp only [Option.mem_def, Option.some.injEq] at hch
    subst hch; rfl

theorem basePred_hostLine (h ip : Line) :
    startsWith (str "PartitionName=base") (slurmctldHostLine h ip) = false :=
  startsWith_ne_head rfl rfl rfl

theorem basePred_nodeLine (n a c r : Line) :
    startsWith (str "PartitionName=base") (nodeLine n a c r) = false :=
  startsWith_ne_head rfl rfl rfl

theorem basePred_baselineTail :
    ∀ l ∈ baselineTail, startsWith (str "PartitionName=base") l = false := by decide

theorem nodePred_partitionLine (ns : List Line) :
    startsWith (str "NodeName") (partitionLine ns) = false :=
  startsWith_ne_head rfl rfl rfl

theorem basePred_partitionLine (ns : List Line) :
    startsWith (str "PartitionName=base") (partitionLine ns) = true := by
  have h1 : startsWith (str "PartitionName=base") (str "PartitionName=base Nodes=")
      = true := by decide
  exact startsWith_append_extend (startsWith_append_extend
    (startsWith_append_extend (startsWith_append_extend h1 _) _) _) _

/-! ### Behaviour of the removal loop -/

theorem pyRemoveAux_big {p : Line → Bool} {fuel : Nat} {conf : Doc} {i : Nat}
    (h : conf.length ≤ i) : pyRemoveAux p fuel conf i = conf := by
  cases fuel with
  | zero => rfl
  | succ n =>
      unfold pyRemoveAux
      rw [dif_neg (by omega)]

theorem pyRemoveAux_no_match {p : Line → Bool} :
    ∀ (fuel : Nat) (conf : Doc) (i : Nat),
      (∀ x ∈ conf, p x = false) → pyRemoveAux p fuel conf i = conf := by
  intro fuel
  induction fuel with
  | zero => intro conf i _; rfl
  | succ n ih =>
      intro conf i h
      unfold pyRemoveAux
      by_cases hi : i < conf.length
      · rw [dif_pos hi]
        have hpx : p (conf.get ⟨i, hi⟩) = false := h _ (conf.get_mem i hi)
        simp only [hpx, if_neg Bool.false_ne_true, ite_false]
        exact ih conf (i + 1) h
      · rw [dif_neg hi]

theorem pyRemoveAux_last {p : Line → Bool} {xs : Doc} {e : Line}
    (hxs : ∀ x ∈ xs, p x = false) (he : p e = true) :
    ∀ (fuel : Nat) (i : Nat), i ≤ xs.length → xs.length + 1 ≤ i + fuel →
      pyRemoveAux p fuel (xs ++ [e]) i = xs := by
  have hnot : e ∉ xs := by
    intro hmem
    rw [hxs e hmem] at he
    exact Bool.false_ne_true he
  intro fuel
  induction fuel with
  | zero => intro i h1 h2; omega
  | succ n ih =>
      intro i h1 h2
      have hi : i < (xs ++ [e]).length := by
        simp only [List.length_append, List.length_cons, List.length_nil]
        omega
      unfold pyRemoveAux
      rw [dif_pos hi]
      by_cases hlt : i < xs.length
      · have hentry : (xs ++ [e]).get ⟨i, hi⟩ = xs.get ⟨i, hlt⟩ := by
          simp only [List.get_eq_getElem]
          exact List.getElem_append_left hlt
        rw [hentry]
        have hpx : p (xs.get ⟨i, hlt⟩) = false := hxs _ (xs.get_mem i hlt)
        simp only [hpx, ite_false, if_neg Bool.false_ne_true]
        exact ih (i + 1) (by omega) (by omega)
      · have hieq : i = xs.length := by omega
        have hentry : (xs ++ [e]).get ⟨i, hi⟩ = e := by
          simp only [List.get_eq_getElem]
          rw [List.getElem_append_right (by omega)]
          simp [hieq]
        rw [hentry]
        simp only [he, ite_true, if_pos rfl]
        rw [List.erase_append_right _ hnot]
        rw [List.erase_cons_head, List.append_nil]
        exact pyRemoveAux_big (by omega)

theorem pyRemove_no_match {p : Line → Bool} {conf : Doc}
    (h : ∀ x ∈ conf, p x = false) : pyRemove p conf = conf :=
  pyRemoveAux_no_match _ conf 0 h

theorem pyRemove_last {p : Line → Bool} {xs : Doc} {e : Line}
    (hxs : ∀ x ∈ xs, p x = false) (he : p e = true) :
    pyRemove p (xs ++ [e]) = xs := by
  unfold pyRemove
  exact pyRemoveAux_last hxs he _ 0 (by omega)
    (by simp only [List.length_append, List.length_cons, List.length_nil]; omega)

/-! ### Behaviour of the node-set collection -/

theorem collectNodes_step_no (conf : Doc) :
    ∀ (acc : List Line), (∀ l ∈ conf, startsWith (str "NodeName") l = false) →
      conf.foldl
        (fun acc entry =>
          if startsWith (str "NodeName") entry then
            let t := nodeToken entry
            if t ∈ acc then acc else acc ++ [t]
          else acc)
        acc = acc := by
  induction conf with
  | nil => intro acc _; rfl
  | cons x xs ih =>
      intro acc h
      simp only [List.foldl_cons]
      rw [if_neg (by rw [h x (by simp)]; exact Bool.false_ne_true)]
      exact ih acc (fun l hl => h l (by simp [hl]))

theorem collectNodes_no_nodes {conf : Doc}
    (h : ∀ l ∈ conf, startsWith (str "NodeName") l = false) :
    collectNodes conf = [] := by
  unfold collectNodes
  exact collectNodes_step_no conf [] h

theorem collectNodes_append_non (conf : Doc) (l : Line)
    (h : startsWith (str "NodeName") l = false) :
    collectNodes (conf ++ [l]) = collectNodes conf := by
  unfold collectNodes
  rw [List.foldl_append]
  simp only [List.foldl_cons, List.foldl_nil]
  rw [if_neg (by rw [h]; exact Bool.false_ne_true)]

/-! ### Reachable documents -/

theorem strip_stable_reachable (h ip : Line) (recs : List NodeRec)
    (hrm : ∀ r ∈ recs, ∀ ch ∈ r.realmemory.getLast?, pyIsSpace ch = false) :
    ∀ l ∈ generate_new_conf h ip ++ recs.map nodeLineOf, pyStrip l = l := by
  intro l hl
  rcases List.mem_append.1 hl with hl | hl
  · simp only [generate_new_conf, List.mem_cons] at hl
    rcases hl with rfl | hl
    · exact pyStrip_hostLine h ip
    · exact pyStrip_baselineTail l hl
  · obtain ⟨r, hr, rfl⟩ := List.mem_map.1 hl
    exact pyStrip_nodeLine _ _ _ _ (hrm r hr)

theorem base_free_reachable (h ip : Line) (recs : List NodeRec) :
    ∀ l ∈ generate_new_conf h ip ++ recs.map nodeLineOf,
      startsWith (str "PartitionName=base") l = false := by
  intro l hl
  rcases List.mem_append.1 hl with hl | hl
  · simp only [generate_new_conf, List.mem_cons] at hl
    rcases hl with rfl | hl
    · exact basePred_hostLine h ip
    · exact basePred_baselineTail l hl
  · obtain ⟨r, hr, rfl⟩ := List.mem_map.1 hl
    exact basePred_nodeLine _ _ _ _

theorem generate_base_partition_base_free {d : Doc}
    (hstrip : ∀ l ∈ d, pyStrip l = l)
    (hbase : ∀ l ∈ d, startsWith (str "PartitionName=base") l = false) :
    generate_base_partition d = d ++ [partitionLine (collectNodes d)] := by
  simp only [generate_base_partition]
  rw [map_pyStrip_eq_self hstrip, pyRemove_no_match hbase]

/-- C2: for any document reachable by a sequence of `addNode` calls from the
baseline configuration, running `generate_base_partition` twice yields the
document obtained after the first run, and that document contains exactly
one line beginning with `PartitionName=base` (in particular never more than
one).  The hypothesis rules out a trailing-whitespace `realmemory`
rendering, under which Python's `strip()` would alter the line on reload;
every value the charm passes satisfies it. -/
theorem c2_recompute_base_partition_idempotent (h ip : Line)
    (recs : List NodeRec)
    (hrm : ∀ r ∈ recs, ∀ ch ∈ r.realmemory.getLast?, pyIsSpace ch = false) :
    generate_base_partition (generate_base_partition
        (generate_new_conf h ip ++ recs.map nodeLineOf)) =
      generate_base_partition (generate_new_conf h ip ++ recs.map nodeLineOf) ∧
    List.countP (startsWith (str "PartitionName=base"))
      (generate_base_partition (generate_new_conf h ip ++ recs.map nodeLineOf))
      = 1 := by
  have hstrip := strip_stable_reachable h ip recs hrm
  have hbase := base_free_reachable h ip recs
  have hg1 := generate_base_partition_base_free hstrip hbase
  set d := generate_new_conf h ip ++ recs.map nodeLineOf with hd
  set P := partitionLine (collectNodes d) with hP
  have hstrip2 : ∀ l ∈ d ++ [P], pyStrip l = l := by
    intro l hl
    rcases List.mem_append.1 hl with hl | hl
    · exact hstrip l hl
    · simp only [List.mem_singleton] at hl
      subst hl
      exact pyStrip_partitionLine _
  have hg2 : generate_base_partition (d ++ [P]) = d ++ [P] := by
    simp only [generate_base_partition]
    rw [map_pyStrip_eq_self hstrip2]
    rw [pyRemove_last hbase (basePred_partitionLine _)]
    rw [collectNodes_append_non _ _ (nodePred_partitionLine _), ← hP]
  constructor
  · rw [hg1, hg2]
  · rw [hg1, List.countP_append]
    have h0 : List.countP (startsWith (str "PartitionName=base")) d = 0 :=
      List.countP_eq_zero.mpr (fun a ha => by
        rw [hbase a ha]; exact Bool.false_ne_true)
    have h1 : List.countP (startsWith (str "PartitionName=base")) [P] = 1 := by
      simp [List.countP_cons, hP, basePred_partitionLine]
    rw [h0, h1]

/-- C2 witness: the theorem applied to host `node0`/`10.0.0.1` and a single
registration of `node1`. -/
theorem c2_witness :
    generate_base_partition (generate_base_partition
        (generate_new_conf (str "node0") (str "10.0.0.1") ++
          [⟨str "node1", str "10.0.0.2", str "4", str "8192"⟩].map nodeLineOf)) =
      generate_base_partition
        (generate_new_conf (str "node0") (str "10.0.0.1") ++
          [⟨str "node1", str "10.0.0.2", str "4", str "8192"⟩].map nodeLineOf) ∧
    List.countP (startsWith (str "PartitionName=base"))
      (generate_base_partition
        (generate_new_conf (str "node0") (str "10.0.0.1") ++
          [⟨str "node1", str "10.0.0.2", str "4", str "8192"⟩].map nodeLineOf))
      = 1 :=
  c2_recompute_base_partition_idempotent (str "node0") (str "10.0.0.1")
    [⟨str "node1", str "10.0.0.2", str "4", str "8192"⟩] (by decide)

/-- C10: on a configuration with no `NodeName` lines,
`generate_base_partition` still appends exactly one base-partition line,
with an empty node list and `MaxNodes=0`. -/
theorem c10_empty_node_set (conf : Doc)
    (h : ∀ l ∈ conf, startsWith (str "NodeName") (pyStrip l) = false) :
    generate_base_partition conf =
      pyRemove (startsWith (str "PartitionName=base")) (conf.map pyStrip) ++
        [str "PartitionName=base Nodes= MaxNodes=0 State=UP"] := by
  have hcoll : collectNodes (conf.map pyStrip) = [] :=
    collectNodes_no_nodes (by
      intro l hl
      obtain ⟨x, hx, rfl⟩ := List.mem_map.1 hl
      exact h x hx)
  simp only [generate_base_partition]
  rw [hcoll]
  have hp : partitionLine [] =
      str "PartitionName=base Nodes= MaxNodes=0 State=UP" := by decide
  rw [hp]

/-- C10 witness: the theorem applied to the freshly generated baseline
configuration, which has no `NodeName` lines. -/
theorem c10_witness :
    generate_base_partition (generate_new_conf (str "node0") (str "10.0.0.1")) =
      pyRemove (startsWith (str "PartitionName=base"))
          ((generate_new_conf (str "node0") (str "10.0.0.1")).map pyStrip) ++
        [str "PartitionName=base Nodes= MaxNodes=0 State=UP"] :=
  c10_empty_node_set (generate_new_conf (str "node0") (str "10.0.0.1"))
    (by decide)

/-- C5: the end-to-end scenario.  Baseline for `node0`/`10.0.0.1`, admit
`node1` (`add_node` appends its directive), recompute: the document gains
exactly one line `PartitionName=base Nodes=node1 MaxNodes=1 State=UP`.
Admitting the identical `node1` again and recomputing leaves `MaxNodes=1`:
the `set` of node names deduplicates the two `NodeName=node1` directives,
so `MaxNodes` counts distinct names, not `NodeName` lines. -/
theorem c5_end_to_end :
    add_node (some (str "node1")) (some (str "10.0.0.2")) (some (str "4"))
        (some (str "8192")) (generate_new_conf (str "node0") (str "10.0.0.1")) =
      .ok (generate_new_conf (str "node0") (str "10.0.0.1") ++
        [nodeLine (str "node1") (str "10.0.0.2") (str "4") (str "8192")]) ∧
    generate_base_partition
        (generate_new_conf (str "node0") (str "10.0.0.1") ++
          [nodeLine (str "node1") (str "10.0.0.2") (str "4") (str "8192")]) =
      generate_new_conf (str "node0") (str "10.0.0.1") ++
        [nodeLine (str "node1") (str "10.0.0.2") (str "4") (str "8192"),
         str "PartitionName=base Nodes=node1 MaxNodes=1 State=UP"] ∧
    List.countP
        (fun l => l == str "PartitionName=base Nodes=node1 MaxNodes=1 State=UP")
        (generate_base_partition
          (generate_new_conf (str "node0") (str "10.0.0.1") ++
            [nodeLine (str "node1") (str "10.0.0.2") (str "4") (str "8192")]))
      = 1 ∧
    add_node (some (str "node1")) (some (str "10.0.0.2")) (some (str "4"))
        (some (str "8192"))
        (generate_new_conf (str "node0") (str "10.0.0.1") ++
          [nodeLine (str "node1") (str "10.0.0.2") (str "4") (str "8192"),
           str "PartitionName=base Nodes=node1 MaxNodes=1 State=UP"]) =
      .ok (generate_new_conf (str "node0") (str "10.0.0.1") ++
        [nodeLine (str "node1") (str "10.0.0.2") (str "4") (str "8192"),
         str "PartitionName=base Nodes=node1 MaxNodes=1 State=UP",
         nodeLine (str "node1") (str "10.0.0.2") (str "4") (str "8192")]) ∧
    generate_base_partition
        (generate_new_conf (str "node0") (str "10.0.0.1") ++
          [nodeLine (str "node1") (str "10.0.0.2") (str "4") (str "8192"),
           str "PartitionName=base Nodes=node1 MaxNodes=1 State=UP",
           nodeLine (str "node1") (str "10.0.0.2") (str "4") (str "8192")]) =
      generate_new_conf (str "node0") (str "10.0.0.1") ++
        [nodeLine (str "node1") (str "10.0.0.2") (str "4") (str "8192"),
         nodeLine (str "node1") (str "10.0.0.2") (str "4") (str "8192"),
         str "PartitionName=base Nodes=node1 MaxNodes=1 State=UP"] ∧
    List.countP
        (fun l => l == str "PartitionName=base Nodes=node1 MaxNodes=1 State=UP")
        (generate_base_partition
          (generate_new_conf (str "node0") (str "10.0.0.1") ++
            [nodeLine (str "node1") (str "10.0.0.2") (str "4") (str "8192"),
             str "PartitionName=base Nodes=node1 MaxNodes=1 State=UP",
             nodeLine (str "node1") (str "10.0.0.2") (str "4") (str "8192")]))
      = 1 := by
  decide

/-! ### The compute-registration handler -/

theorem handler_not_ready (w : World) (iface : ComputeIface)
    (hn : iface.nonce = []) :
    slurm_compute_relation_changed w iface =
      .ok { w with status := str "Compute node is not ready yet" }
        [.setStatus (str "Compute node is not ready yet")] := by
  simp [slurm_compute_relation_changed, hn]

theorem handler_not_leader (w : World) (iface : ComputeIface)
    (hn : iface.nonce ≠ []) (hl : w.leader = false) :
    slurm_compute_relation_changed w iface =
      .ok { w with status := str "Leader registering new compute node" }
        [.setStatus (str "Leader registering new compute node")] := by
  simp [slurm_compute_relation_changed, hn, hl]

theorem handler_ready_leader (w : World) (iface : ComputeIface)
    (hn : iface.nonce ≠ []) (hl : w.leader = true)
    (hi : w.slurmInstalled = true) :
    slurm_compute_relation_changed w iface =
      .raised
        { w with
            slurmRunning := true,
            conf := generate_base_partition (w.conf ++
              [nodeLine iface.hostname iface.ip_address iface.cpu_count
                iface.free_memory]),
            status := str "Registering new compute node" }
        ([CEv.setStatus (str "Registering new compute node")] ++
          (if w.slurmRunning then [CEv.svcStop] else []) ++
          [CEv.addNodeEv, CEv.genPartEv, CEv.svcStart]) := by
  cases hr : w.slurmRunning <;>
    simp [slurm_compute_relation_changed, slurmctld_stop, slurmctld_start,
      add_node, lint_node_conf, hn, hl, hi, hr]

theorem handler_ready_leader_not_installed (w : World) (iface : ComputeIface)
    (hn : iface.nonce ≠ []) (hl : w.leader = true)
    (hi : w.slurmInstalled = false) :
    slurm_compute_relation_changed w iface =
      .raised { w with status := str "Registering new compute node" }
        [CEv.setStatus (str "Registering new compute node")] := by
  simp [slurm_compute_relation_changed, slurmctld_stop, hn, hl, hi]

/-- C3 counterexample: a leader with slurmctld installed and running
receives a ready payload; the handler stops the service, adds the node,
recomputes the partition and restarts the service — and then the hook
fails (`AttributeError` at `charm.py:134`: `conf_file_path` does not exist
on the manager).  The result is `raised`, the trace contains no
publication event, and the controller bucket (`outConf = none`,
`outNonce = []`) is untouched: the claimed broadcast of configuration
bytes, fingerprint and fresh nonce never happens. -/
theorem c3_counterexample :
    slurm_compute_relation_changed
        ⟨true, true, true, [str "ClusterName=base"], none, [], []⟩
        ⟨str "abc", str "node1", str "10.0.0.2", str "4", str "8192"⟩ =
      .raised
        ⟨true, true, true,
          [str "ClusterName=base",
           nodeLine (str "node1") (str "10.0.0.2") (str "4") (str "8192"),
           str "PartitionName=base Nodes=node1 MaxNodes=1 State=UP"],
          none, [],
          str "Registering new compute node"⟩
        [CEv.setStatus (str "Registering new compute node"), CEv.svcStop,
         CEv.addNodeEv, CEv.genPartEv, CEv.svcStart] := by
  decide

/-- C3 (amended): on the leader, with a ready (non-empty) nonce and with
slurmctld installed, the handler performs in order: status message, stop
of the scheduler service (a systemd stop only if it was running),
`add_node`, `generate_base_partition`, start of the scheduler service —
and then fails with an `AttributeError` while preparing the broadcast
(the source reads `conf_file_path`, an attribute the manager does not
have), so no configuration bytes, fingerprint or nonce are ever written
to the controller-distribution channel and the hook exits abnormally;
the file and service effects already performed persist. -/
theorem c3_registration_sequence (w : World) (iface : ComputeIface)
    (hn : iface.nonce ≠ []) (hl : w.leader = true)
    (hi : w.slurmInstalled = true) :
    slurm_compute_relation_changed w iface =
      .raised
        { w with
            slurmRunning := true,
            conf := generate_base_partition (w.conf ++
              [nodeLine iface.hostname iface.ip_address iface.cpu_count
                iface.free_memory]),
            status := str "Registering new compute node" }
        ([CEv.setStatus (str "Registering new compute node")] ++
          (if w.slurmRunning then [CEv.svcStop] else []) ++
          [CEv.addNodeEv, CEv.genPartEv, CEv.svcStart]) :=
  handler_ready_leader w iface hn hl hi

/-- C3 witness: the amended theorem applied to a concrete ready leader
state (service initially stopped); the controller bucket fields keep their
old values. -/
theorem c3_witness :
    slurm_compute_relation_changed
        ⟨true, true, false, [str "ClusterName=base"], none, str "old", []⟩
        ⟨str "xyz", str "node9", str "10.0.0.9", str "2", str "1024"⟩ =
      .raised
        ⟨true, true, true,
          generate_base_partition ([str "ClusterName=base"] ++
            [nodeLine (str "node9") (str "10.0.0.9") (str "2") (str "1024")]),
          none, str "old",
          str "Registering new compute node"⟩
        [CEv.setStatus (str "Registering new compute node"), CEv.addNodeEv,
         CEv.genPartEv, CEv.svcStart] :=
  c3_registration_sequence
    ⟨true, true, false, [str "ClusterName=base"], none, str "old", []⟩
    ⟨str "xyz", str "node9", str "10.0.0.9", str "2", str "1024"⟩
    (by decide) rfl rfl

/-- C4 counterexample: a leader receiving a ready (non-empty nonce) payload
while slurmctld is not installed performs zero mutations — the handler
raises `SlurmctldNotFoundError` from `stop()` before touching the
configuration (only the status message changes) — contradicting the claim
that a leader performs exactly one admission transaction per ready event
(the "mutates if leader and nonce non-empty" direction of the
biconditional). -/
theorem c4_counterexample :
    slurm_compute_relation_changed
        ⟨true, false, false, [str "ClusterName=base"], none, [], []⟩
        ⟨str "abc", str "node1", str "10.0.0.2", str "4", str "8192"⟩ =
      .raised
        ⟨true, false, false, [str "ClusterName=base"], none, [],
         str "Registering new compute node"⟩
        [CEv.setStatus (str "Registering new compute node")] := by
  decide

/-- C4 (amended): the handler mutates the configuration file iff the unit
is leader, the nonce is non-empty, and slurmctld is installed: an
empty-nonce event or a non-leader unit changes nothing but the status
message and performs only a status action; a leader with a ready nonce and
slurmctld installed performs exactly one `add_node` and one partition
recompute, publishes nothing (the hook fails with `AttributeError` before
the controller-bucket write, leaving `outConf` and `outNonce` untouched);
a leader with a ready nonce but slurmctld missing fails from `stop()`
without mutating anything. -/
theorem c4_leader_gating (w : World) (iface : ComputeIface) :
    (iface.nonce = [] →
        slurm_compute_relation_changed w iface =
          .ok { w with status := str "Compute node is not ready yet" }
            [.setStatus (str "Compute node is not ready yet")]) ∧
    (iface.nonce ≠ [] → w.leader = false →
        slurm_compute_relation_changed w iface =
          .ok { w with status := str "Leader registering new compute node" }
            [.setStatus (str "Leader registering new compute node")]) ∧
    (iface.nonce ≠ [] → w.leader = true → w.slurmInstalled = true →
        ∃ w' tr, slurm_compute_relation_changed w iface = .raised w' tr ∧
          List.countP (fun e => e == CEv.addNodeEv) tr = 1 ∧
          List.countP (fun e => e == CEv.genPartEv) tr = 1 ∧
          List.countP (fun e => e == CEv.publishConf) tr = 0 ∧
          w'.conf = generate_base_partition (w.conf ++
            [nodeLine iface.hostname iface.ip_address iface.cpu_count
              iface.free_memory]) ∧
          w'.outConf = w.outConf ∧
          w'.outNonce = w.outNonce) ∧
    (iface.nonce ≠ [] → w.leader = true → w.slurmInstalled = false →
        slurm_compute_relation_changed w iface =
          .raised { w with status := str "Registering new compute node" }
            [CEv.setStatus (str "Registering new compute node")]) := by
  refine ⟨handler_not_ready w iface, handler_not_leader w iface,
    fun hn hl hi => ?_, handler_ready_leader_not_installed w iface⟩
  refine ⟨_, _, handler_ready_leader w iface hn hl hi, ?_, ?_, ?_, rfl, rfl,
    rfl⟩ <;> cases hr : w.slurmRunning <;> simp [hr, List.countP_cons]

/-- C4 witness: the amended theorem applied at concrete states for all four
branches (empty nonce, non-leader, ready leader, ready leader without
slurmctld). -/
theorem c4_witness :
    slurm_compute_relation_changed ⟨false, true, false, [], none, [], []⟩
        ⟨[], str "n", str "10.0.0.2", str "4", str "8192"⟩ =
      .ok ⟨false, true, false, [], none, [],
            str "Compute node is not ready yet"⟩
        [.setStatus (str "Compute node is not ready yet")] ∧
    slurm_compute_relation_changed ⟨false, true, false, [], none, [], []⟩
        ⟨str "a", str "n", str "10.0.0.2", str "4", str "8192"⟩ =
      .ok ⟨false, true, false, [], none, [],
            str "Leader registering new compute node"⟩
        [.setStatus (str "Leader registering new compute node")] ∧
    (∃ w' tr,
      slurm_compute_relation_changed ⟨true, true, false, [], none, [], []⟩
          ⟨str "a", str "n", str "10.0.0.2", str "4", str "8192"⟩ =
        .raised w' tr ∧
      List.countP (fun e => e == CEv.addNodeEv) tr = 1 ∧
      List.countP (fun e => e == CEv.genPartEv) tr = 1 ∧
      List.countP (fun e => e == CEv.publishConf) tr = 0 ∧
      w'.conf = generate_base_partition (([] : Doc) ++
        [nodeLine (str "n") (str "10.0.0.2") (str "4") (str "8192")]) ∧
      w'.outConf = (⟨true, true, false, [], none, [], []⟩ : World).outConf ∧
      w'.outNonce = (⟨true, true, false, [], none, [], []⟩ : World).outNonce) ∧
    slurm_compute_relation_changed ⟨true, false, false, [], none, [], []⟩
        ⟨str "a", str "n", str "10.0.0.2", str "4", str "8192"⟩ =
      .raised ⟨true, false, false, [], none, [],
            str "Registering new compute node"⟩
        [CEv.setStatus (str "Registering new compute node")] :=
  ⟨(c4_leader_gating ⟨false, true, false, [], none, [], []⟩
      ⟨[], str "n", str "10.0.0.2", str "4", str "8192"⟩).1 rfl,
   (c4_leader_gating ⟨false, true, false, [], none, [], []⟩
      ⟨str "a", str "n", str "10.0.0.2", str "4", str "8192"⟩).2.1
      (by decide) rfl,
   (c4_leader_gating ⟨true, true, false, [], none, [], []⟩
      ⟨str "a", str "n", str "10.0.0.2", str "4", str "8192"⟩).2.2.1
      (by decide) rfl rfl,
   (c4_leader_gating ⟨true, false, false, [], none, [], []⟩
      ⟨str "a", str "n", str "10.0.0.2", str "4", str "8192"⟩).2.2.2
      (by decide) rfl rfl⟩

/-- C7: `generate_new_key` fails with `MungeNotFoundError` when munge is
absent (and, returning `error`, leaves all state unchanged); otherwise it
performs, in mandatory order: stop the munge service, delete the existing
key file if present, invoke `mungekey -c`, then start the service.  Each
trace entry carries the service's `running` flag at the moment of the
effect: the deletion and the key generation always happen with the service
stopped (`false`), so the service is never running against a deleted or
half-written secret. -/
theorem c7_rotate_order (s : MungeSt) :
    (s.installed = false → generate_new_key s = .error ()) ∧
    (s.installed = true →
      generate_new_key s =
        .ok ({ s with
                running := true,
                keyFile := some s.nextKey,
                nextKey := s.nextKey + 1 },
          (if s.running then [(MEv.svcStop, true)] else []) ++
            (if s.keyFile.isSome then [(MEv.rmKey, false)] else []) ++
            [(MEv.mungekey, false), (MEv.svcStart, false)])) := by
  constructor
  · intro hi
    simp [generate_new_key, hi]
  · intro hi
    cases hr : s.running <;> cases hk : s.keyFile <;>
      simp [generate_new_key, munge_stop, munge_start, hi, hr, hk,
        Bind.bind, Except.bind]

/-- C7 witness: a rotation from an installed, running daemon with a key
present, and the failure on an uninstalled daemon. -/
theorem c7_witness :
    generate_new_key ⟨true, true, some 7, 3⟩ =
      .ok (⟨true, true, some 3, 4⟩,
        [(MEv.svcStop, true), (MEv.rmKey, false), (MEv.mungekey, false),
         (MEv.svcStart, false)]) ∧
    generate_new_key ⟨false, true, some 7, 3⟩ = .error () :=
  ⟨(c7_rotate_order ⟨true, true, some 7, 3⟩).2 rfl,
   (c7_rotate_order ⟨false, true, some 7, 3⟩).1 rfl⟩

/-- C9: given the daemon is installed, `start` on a running service and
`stop` on a stopped service perform no systemd action and leave the state
unchanged; with the daemon not installed both raise the not-installed
error, touching nothing.  Stated for both the slurmctld manager and the
munge manager, whose `start`/`stop` are structurally identical. -/
theorem c9_start_stop_idempotent (w : World) (s : MungeSt) :
    (w.slurmInstalled = true → w.slurmRunning = true →
      slurmctld_start w = .ok (w, [])) ∧
    (w.slurmInstalled = true → w.slurmRunning = false →
      slurmctld_stop w = .ok (w, [])) ∧
    (w.slurmInstalled = false →
      slurmctld_start w = .error () ∧ slurmctld_stop w = .error ()) ∧
    (s.installed = true → s.running = true → munge_start s = .ok (s, [])) ∧
    (s.installed = true → s.running = false → munge_stop s = .ok (s, [])) ∧
    (s.installed = false →
      munge_start s = .error () ∧ munge_stop s = .error ()) := by
  refine ⟨fun h1 h2 => ?_, fun h1 h2 => ?_, fun h1 => ⟨?_, ?_⟩,
    fun h1 h2 => ?_, fun h1 h2 => ?_, fun h1 => ⟨?_, ?_⟩⟩ <;>
    simp [slurmctld_start, slurmctld_stop, munge_start, munge_stop, *]

/-- C9 witness: the theorem applied at concrete service states. -/
theorem c9_witness :
    slurmctld_start ⟨true, true, true, [], none, [], []⟩ =
      .ok (⟨true, true, true, [], none, [], []⟩, []) ∧
    slurmctld_stop ⟨true, true, false, [], none, [], []⟩ =
      .ok (⟨true, true, false, [], none, [], []⟩, []) ∧
    munge_start ⟨true, true, none, 0⟩ = .ok (⟨true, true, none, 0⟩, []) ∧
    munge_stop ⟨true, false, none, 0⟩ = .ok (⟨true, false, none, 0⟩, []) ∧
    slurmctld_start ⟨false, false, false, [], none, [], []⟩ = .error () ∧
    munge_stop ⟨false, false, none, 0⟩ = .error () :=
  ⟨(c9_start_stop_idempotent ⟨true, true, true, [], none, [], []⟩
      ⟨true, true, none, 0⟩).1 rfl rfl,
   (c9_start_stop_idempotent ⟨true, true, false, [], none, [], []⟩
      ⟨true, true, none, 0⟩).2.1 rfl rfl,
   (c9_start_stop_idempotent ⟨true, true, true, [], none, [], []⟩
      ⟨true, true, none, 0⟩).2.2.2.1 rfl rfl,
   (c9_start_stop_idempotent ⟨true, true, true, [], none, [], []⟩
      ⟨true, false, none, 0⟩).2.2.2.2.1 rfl rfl,
   ((c9_start_stop_idempotent ⟨false, false, false, [], none, [], []⟩
      ⟨true, true, none, 0⟩).2.2.1 rfl).1,
   ((c9_start_stop_idempotent ⟨true, true, true, [], none, [], []⟩
      ⟨false, false, none, 0⟩).2.2.2.2.2 rfl).2⟩

/-- C6: node validation fails with `InvalidNodeConfError` iff at least one
of the four keyword arguments is absent (`None`); whenever all four are
present, `add_node` succeeds and appends the node directive, whatever the
(rendered) values are. -/
theorem c6_validation_presence :
    (∀ (a b c d : Option Line) (conf : Doc),
        exceptOk (add_node a b c d conf) =
          (a.isSome && b.isSome && c.isSome && d.isSome)) ∧
    (∀ (a b c d : Line) (conf : Doc),
        add_node (some a) (some b) (some c) (some d) conf =
          .ok (conf ++ [nodeLine a b c d])) := by
  constructor
  · intro a b c d conf
    cases a <;> cases b <;> cases c <;> cases d <;> rfl
  · intro a b c d conf
    rfl

/-- C8 counterexample: with the package missing from the apt cache,
`install` returns normally (`ok`) — the failure is not surfaced to the
caller and the operation is not aborted, for both managers. -/
theorem c8_counterexample :
    (installSlurmctld AptOutcome.notFound).1 = Except.ok () ∧
    (installMunge AptOutcome.notFound).1 = Except.ok () :=
  ⟨rfl, rfl⟩

/-- C8 (amended): a failed package installation is logged — exactly one
error record on the failing outcomes, none on success — but the exception
is caught inside `install`, which always returns normally; the trailing
`finally` block even logs "installed" in every case, so the failure is
swallowed rather than propagated as blocking status. -/
theorem c8_install_swallows_failures :
    (∀ r : AptOutcome, (installSlurmctld r).1 = Except.ok () ∧
      List.countP isErrorLog (installSlurmctld r).2 =
        (if aptFailed r then 1 else 0) ∧
      (installSlurmctld r).2.getLast? =
        some (.debug (str "slurmctld installed."))) ∧
    (∀ r : AptOutcome, (installMunge r).1 = Except.ok () ∧
      List.countP isErrorLog (installMunge r).2 =
        (if aptFailed r then 1 else 0) ∧
      (installMunge r).2.getLast? = some (.debug (str "munge installed."))) := by
  constructor <;> intro r <;> cases r <;>
    simp [installSlurmctld, installMunge, aptFailed, isErrorLog,
      List.countP_cons]

/-- C1: evaluation of `SlurmServerManager.hash` at a concrete failing
input.  With `slurm.conf = [48]` (`"0"`) and `munge.key = [107]` (`"k"`),
mutating the single byte of `slurm.conf` to `[49]` (`"1"`) leaves the
returned digest unchanged, because the accessor hashes
`/etc/munge/munge.key`, not the configuration file: the digest equals the
SHA-224 of the munge key (as `MungeManager.hash` returns for the same
filesystem), and changes exactly when the munge key bytes change. -/
theorem c1_hash_reads_munge_key :
    slurmServerHash ⟨some [48], some [107]⟩ =
      slurmServerHash ⟨some [49], some [107]⟩ ∧
    slurmServerHash ⟨some [48], some [107]⟩ =
      .ok (str "5006bab5782456808d60bddfa64db2d13d90b2c5550ba1ff2b2acad7") ∧
    slurmServerHash ⟨some [48], some [75]⟩ =
      .ok (str "358223f683592f32c35f2678fac433704728a2bf06d5737aec8dde7b") ∧
    mungeHash ⟨some [48], some [107]⟩ =
      .ok (str "5006bab5782456808d60bddfa64db2d13d90b2c5550ba1ff2b2acad7") := by
  exact ⟨rfl, by decide, by decide, by decide⟩
